import Mathlib

/-!
Shallow embedding of the GameRequest frontend (and the spec-described
Import Orchestrator) in Lean 4, with theorems settling the frozen claims
about the request lifecycle, the Settings Telegram flow, the Library bulk
flow and the game-detail availability panel.

Sources embedded:
 * the Requests page (`getNextStatus`, the Edit Status modal, the
   next-status confirmation path);
 * `Settings.jsx` (`handleSettingChange`, `testTelegramConnection`,
   `handleTelegramToggle`, the Enable Telegram toggle's disabled
   condition);
 * `Library.jsx` (`handleTextImport`, the import status banner);
 * `GameDetail.jsx` (the availability panel);
 * `api/suggestions.js` (`getGameSuggestions`);
 * the admin redirects of `Library.jsx` and `Settings.jsx` together with
   `isAdmin` from `AuthContext.jsx`.
-/

namespace GameRequest

/-! ## Requests page: status progression and the Edit Status modal -/

/-- `getNextStatus` from the Requests page: a JS `switch` on the current
status string, returning the next status in the progression or `null`
(here `none`) in the default case. -/
def getNextStatus (currentStatus : String) : Option String :=
  if currentStatus = "pending" then some "approved"
  else if currentStatus = "approved" then some "completed"
  else if currentStatus = "rejected" then some "approved"
  else none

/-- A request as the Requests page sees it (the fields the status flows
touch). -/
structure Request where
  id : Nat
  game_name : String
  status : String
deriving DecidableEq

/-- State of the Edit Status modal (`editModal` in the Requests page). -/
structure EditModalState where
  isOpen : Bool
  request : Option Request
  newStatus : String
deriving DecidableEq

/-- The `<option>` values offered by the Edit Status modal's status
`<select>`. -/
def editStatusOptions : List String :=
  ["pending", "approved", "rejected", "completed"]

/-- `openEditModal`: opens the modal with `newStatus` initialised to the
request's current status. -/
def openEditModal (r : Request) : EditModalState :=
  { isOpen := true, request := some r, newStatus := r.status }

/-- The `onChange` of the modal's `<select>`: stores the chosen value in
`newStatus`. -/
def selectEditStatus (m : EditModalState) (v : String) : EditModalState :=
  { m with newStatus := v }

/-- `updateRequestStatus` PATCHes `{ status: editModal.newStatus }`; this
is the status value sent to the server. -/
def updateRequestStatusBody (m : EditModalState) : String :=
  m.newStatus

/-- State of the next-status confirmation modal (`nextStatusModal`). -/
structure NextStatusModalState where
  isOpen : Bool
  request : Option Request
  nextStatus : String
deriving DecidableEq

/-- `openNextStatusModal`: opens the modal only when `getNextStatus`
yields a next status. -/
def openNextStatusModal (r : Request) : Option NextStatusModalState :=
  (getNextStatus r.status).map fun ns =>
    { isOpen := true, request := some r, nextStatus := ns }

/-- `confirmNextStatus` PATCHes `{ status: nextStatusModal.nextStatus }`;
this is the status value sent to the server. -/
def confirmNextStatusBody (m : NextStatusModalState) : String :=
  m.nextStatus

/-! ## Settings page: Telegram configuration flow -/

/-- A JS value stored in the `settings` object: the settings hold
booleans, numbers and strings. -/
inductive SettingValue where
  | b (v : Bool)
  | i (v : Int)
  | s (v : String)
deriving DecidableEq

/-- JS truthiness of a setting value (`!x` in the source negates this). -/
def SettingValue.truthy : SettingValue → Bool
  | .b v => v
  | .i v => v != 0
  | .s v => v != ""

/-- The keys of the `settings` state object of the Settings component. -/
inductive SettingKey where
  | maxRequestsPerUser
  | requireAdminApproval
  | allowUserRequestDeletion
  | telegramEnabled
  | telegramBotToken
  | telegramChatId
  | notifyOnNewRequest
  | notifyOnStatusChange
  | notifyOnUserRegistration
  | notifyOnSystemErrors
  | enableApplicationLogs
  | enableErrorLogs
  | enableAuditLogs
  | logRetentionDays
deriving DecidableEq

/-- The `settings` object: a total assignment of values to keys,
mirroring the JS object. -/
def SettingsMap : Type := SettingKey → SettingValue

/-- JS computed-key assignment `{ ...prev, [key]: value }`. -/
def setSetting (s : SettingsMap) (key : SettingKey) (v : SettingValue) :
    SettingsMap :=
  fun k => if k = key then v else s k

/-- The component state of `Settings.jsx` relevant to the Telegram flow:
the `settings` object, the `telegramTestSuccess` flag and the `loading`
flag. -/
structure SettingsState where
  settings : SettingsMap
  telegramTestSuccess : Bool
  loading : Bool

/-- The initial `useState` values of the Settings component. -/
def initialSettingsMap : SettingsMap
  | .maxRequestsPerUser => .i (-1)
  | .requireAdminApproval => .b true
  | .allowUserRequestDeletion => .b false
  | .telegramEnabled => .b false
  | .telegramBotToken => .s ""
  | .telegramChatId => .s ""
  | .notifyOnNewRequest => .b true
  | .notifyOnStatusChange => .b true
  | .notifyOnUserRegistration => .b false
  | .notifyOnSystemErrors => .b false
  | .enableApplicationLogs => .b true
  | .enableErrorLogs => .b true
  | .enableAuditLogs => .b true
  | .logRetentionDays => .i 30

/-- Initial state of the Settings component. -/
def initialSettingsState : SettingsState :=
  { settings := initialSettingsMap, telegramTestSuccess := false,
    loading := false }

/-- `handleSettingChange(key, value)`: stores the new value; when the key
is the bot token or the chat id, additionally resets
`telegramTestSuccess` to `false` and, if Telegram was enabled (read from
the pre-update `settings` closure), re-applies the update together with
`telegramEnabled: false`. -/
def handleSettingChange (st : SettingsState) (key : SettingKey)
    (value : SettingValue) : SettingsState :=
  if key = .telegramBotToken ∨ key = .telegramChatId then
    if (st.settings .telegramEnabled).truthy then
      { st with
        telegramTestSuccess := false,
        settings :=
          setSetting (setSetting (setSetting st.settings key value) key
            value) .telegramEnabled (.b false) }
    else
      { st with
        telegramTestSuccess := false,
        settings := setSetting st.settings key value }
  else { st with settings := setSetting st.settings key value }

/-- The possible outcomes of `testTelegramConnection`'s two network
operations, as seen by the component: the settings PUT can fail, the
fetch of the test endpoint can throw, or the test endpoint answers with
an HTTP ok-flag and a JSON body whose `success` field may be absent or
any value (`data.success === true` is a strict comparison). -/
inductive TestOutcome where
  | saveFailed
  | netError
  | response (ok : Bool) (success : Option SettingValue)
deriving DecidableEq

/-- `testTelegramConnection`: early-returns (state unchanged) when the
bot token or chat id is falsy; otherwise sets `telegramTestSuccess` to
`true` exactly when the test endpoint responded ok with
`data.success === true`, and to `false` in every other branch (failed
save and thrown errors land in the `catch`, which also sets it to
`false`). -/
def testTelegramConnection (st : SettingsState) (outcome : TestOutcome) :
    SettingsState :=
  if ¬(st.settings .telegramBotToken).truthy ∨
      ¬(st.settings .telegramChatId).truthy then
    st
  else
    match outcome with
    | .saveFailed => { st with telegramTestSuccess := false }
    | .netError => { st with telegramTestSuccess := false }
    | .response ok success =>
        if ok ∧ success = some (.b true) then
          { st with telegramTestSuccess := true }
        else
          { st with telegramTestSuccess := false }

/-- `handleTelegramToggle`: flips `telegramEnabled` (as the negation of
its truthiness) and saves immediately; on a failed save the flip is
reverted. -/
def handleTelegramToggle (st : SettingsState) (saveOk : Bool) :
    SettingsState :=
  let newValue : Bool := !(st.settings .telegramEnabled).truthy
  if saveOk then
    { st with
      settings := setSetting st.settings .telegramEnabled (.b newValue) }
  else
    { st with
      settings :=
        setSetting (setSetting st.settings .telegramEnabled (.b newValue))
          .telegramEnabled (.b (!newValue)) }

/-- `handleTelegramNotificationToggle(key, newValue)`: stores the new
boolean and saves immediately; on a failed save it reverts to the
negation. -/
def handleTelegramNotificationToggle (st : SettingsState)
    (key : SettingKey) (newValue : Bool) (saveOk : Bool) : SettingsState :=
  let st1 : SettingsState :=
    { st with settings := setSetting st.settings key (.b newValue) }
  if saveOk then st1
  else { st1 with settings := setSetting st1.settings key (.b !newValue) }

/-- The `disabled` attribute of the Enable Telegram toggle:
`(!telegramTestSuccess && !settings.telegramEnabled) || loading`. -/
def telegramToggleDisabled (st : SettingsState) : Bool :=
  (!st.telegramTestSuccess && !(st.settings .telegramEnabled).truthy) ||
    st.loading

/-- The user-visible operations of the Settings component that touch the
Telegram state, plus the initial server load. -/
inductive SettingsEvent where
  | settingChange (key : SettingKey) (value : SettingValue)
  | telegramTest (outcome : TestOutcome)
  | telegramToggle (saveOk : Bool)
  | notificationToggle (key : SettingKey) (newValue : Bool) (saveOk : Bool)
  | saveAll (ok : Bool)
  | loadSettings (server : SettingsMap)

/-- One step of the Settings component. Click handlers of `disabled`
controls cannot fire, so the toggle events are guarded by their
`disabled` conditions; `handleSave` does not touch the Telegram state;
a successful `loadSettings` replaces the `settings` object with the
server's values (it never touches `telegramTestSuccess`). -/
def settingsStep (e : SettingsEvent) (st : SettingsState) : SettingsState :=
  match e with
  | .settingChange key value => handleSettingChange st key value
  | .telegramTest outcome => testTelegramConnection st outcome
  | .telegramToggle saveOk =>
      if telegramToggleDisabled st then st
      else handleTelegramToggle st saveOk
  | .notificationToggle key newValue saveOk =>
      if !(st.settings .telegramEnabled).truthy || st.loading then st
      else handleTelegramNotificationToggle st key newValue saveOk
  | .saveAll _ => st
  | .loadSettings server => { st with settings := server }

/-! ## JS string primitives

`String.prototype.split(sep)` and `String.prototype.trim()` as
structural recursions over the character list of a string. -/

/-- JS `str.split(sep)` for a one-character separator, over character
lists: `"".split(sep)` is `[""]`, and every separator occurrence opens a
new (possibly empty) segment. -/
def splitOnChar (sep : Char) : List Char → List (List Char)
  | [] => [[]]
  | c :: cs =>
      let rest := splitOnChar sep cs
      if c = sep then [] :: rest
      else
        match rest with
        | [] => [[c]]
        | r :: rs => (c :: r) :: rs

/-- JS `str.split('\n')`. -/
def jsSplitLines (s : String) : List String :=
  (splitOnChar '\n' s.data).map String.mk

/-- Leading- and trailing-whitespace removal on character lists. -/
def trimChars (cs : List Char) : List Char :=
  ((cs.dropWhile Char.isWhitespace).reverse.dropWhile
    Char.isWhitespace).reverse

/-- JS `str.trim()`. -/
def jsTrim (s : String) : String :=
  String.mk (trimChars s.data)

/-! ## Library page: bulk import -/

/-- One entry of `imported_games` in a bulk-import result. -/
structure ImportedGame where
  original_name : String
  igdb_name : String
  genres : Option String
deriving DecidableEq

/-- One entry of `failed_games` in a bulk-import result. -/
structure FailedGame where
  name : String
  reason : String
deriving DecidableEq

/-- The bulk-import response body:
`{total_games, successful_imports, failed_imports, imported_games,
failed_games}`. -/
structure ImportResult where
  total_games : Nat
  successful_imports : Nat
  failed_imports : Nat
  imported_games : List ImportedGame
  failed_games : List FailedGame
deriving DecidableEq

/-- The import status banner of the Library page has three shapes,
carrying the numbers it interpolates: all games imported (green),
some imported (yellow, `X out of Y`), none imported (red,
`Failed to import any games`). -/
inductive ImportBanner where
  | allImported (total : Nat)
  | partialImported (successful total : Nat)
  | noneImported (failed : Nat)
deriving DecidableEq

/-- The banner chosen by the Library page for a successful API call:
`successful_imports === total_games` → all; `successful_imports > 0` →
partial; otherwise the red all-failure banner. -/
def importBanner (r : ImportResult) : ImportBanner :=
  if r.successful_imports = r.total_games then
    .allImported r.total_games
  else if r.successful_imports > 0 then
    .partialImported r.successful_imports r.total_games
  else
    .noneImported r.failed_imports

/-- The count of successfully imported games a banner displays, when it
displays one (the all-imported banner interpolates `total_games`, which
in that branch is the success count). -/
def ImportBanner.shownSuccessful : ImportBanner → Option Nat
  | .allImported total => some total
  | .partialImported successful _ => some successful
  | .noneImported _ => none

/-- The total count of games a banner displays, when it displays one. -/
def ImportBanner.shownTotal : ImportBanner → Option Nat
  | .allImported total => some total
  | .partialImported _ total => some total
  | .noneImported _ => none

/-- Outcome of the `importGamesFromText` API call as the page sees it. -/
inductive ImportApiOutcome where
  | ok (result : ImportResult)
  | thrown (msg : String)
deriving DecidableEq

/-- `importStatus` of the Library page. -/
inductive ImportStatus where
  | idle
  | loading
  | success
  | error
deriving DecidableEq

/-- The Library component state the text-import flow touches. -/
structure LibraryState where
  importStatus : ImportStatus
  importMessage : String
  importResults : Option ImportResult
  textImportInput : String
deriving DecidableEq

/-- Line-by-line parsing of the textarea in `handleTextImport`:
`split('\n')`, `trim` each line, keep the non-empty ones. -/
def parseGameNames (input : String) : List String :=
  ((jsSplitLines input).map jsTrim).filter fun line =>
    line.length > 0

/-- `handleTextImport` at its settled state (after the awaited API call):
empty input and empty name list short-circuit to an error status; a
thrown API call yields an error status; a successful call stores the
result, sets `importStatus` to success and replaces the textarea with
the names of `failed_games`, joined with newlines. -/
def handleTextImport (st : LibraryState) (api : ImportApiOutcome) :
    LibraryState :=
  if jsTrim st.textImportInput = "" then
    { st with importStatus := .error,
              importMessage := "Please enter some games to import." }
  else
    if (parseGameNames st.textImportInput).length = 0 then
      { st with importStatus := .error,
                importMessage := "No valid game names found in input." }
    else
      match api with
      | .ok result =>
          { st with
            importStatus := .success,
            importResults := some result,
            textImportInput :=
              String.intercalate "\n"
                (result.failed_games.map FailedGame.name) }
      | .thrown msg =>
          { st with importStatus := .error,
                    importMessage := "Error during import: " ++ msg }

/-! ## Import Orchestrator (backend), modelled from the spec -/

/-- Modelled from the spec: the backend Import Orchestrator
(`importBatch(names, ownerId) -> BatchResult`) is not among the
repository sources (only the frontend is); per its contract, each name
is resolved against the catalog — `NoMatch` and `CatalogUnavailable`
record a failed entry, a duplicate active/completed request records a
failed entry, and otherwise a completed request is created and recorded
as imported. The per-name resolution outcome. -/
inductive ItemOutcome where
  | noMatch
  | catalogUnavailable
  | duplicate
  | resolved (igdbName : String) (genres : Option String)
deriving DecidableEq

/-- Modelled from the spec: processing of a single submitted name by the
Import Orchestrator — every outcome yields exactly one imported or one
failed entry, never an exception past the batch boundary. -/
def processName (resolve : String → ItemOutcome) (name : String) :
    ImportedGame ⊕ FailedGame :=
  match resolve name with
  | .noMatch => .inr { name := name, reason := "NoMatch" }
  | .catalogUnavailable =>
      .inr { name := name, reason := "CatalogUnavailable" }
  | .duplicate =>
      .inr { name := name,
             reason := "already in library/already requested" }
  | .resolved igdbName genres =>
      .inl { original_name := name, igdb_name := igdbName,
             genres := genres }

/-- Modelled from the spec: `importBatch` processes every submitted name
(result lists in input order), collecting imported and failed entries
and the three counts of the batch result. -/
def importBatch (resolve : String → ItemOutcome) (names : List String) :
    ImportResult :=
  let outcomes := names.map (processName resolve)
  let imported := outcomes.filterMap Sum.getLeft?
  let failed := outcomes.filterMap Sum.getRight?
  { total_games := names.length
    successful_imports := imported.length
    failed_imports := failed.length
    imported_games := imported
    failed_games := failed }

/-! ## GameDetail page: availability panel -/

/-- The per-game, per-user request status query result
`{is_available, can_request, user_has_request, user_request_status}`
(the status may be `null`). -/
structure GameStatus where
  is_available : Bool
  can_request : Bool
  user_has_request : Bool
  user_request_status : Option String
deriving DecidableEq

/-- The label of the request-status badge: the chained strict
comparisons of the JSX, falling back to `Unknown`. -/
def requestStatusLabel (s : Option String) : String :=
  if s = some "pending" then "Pending"
  else if s = some "approved" then "Approved"
  else if s = some "completed" then "Available"
  else if s = some "rejected" then "Rejected"
  else "Unknown"

/-- What the availability panel renders: exactly one of the Available
indicator, the Create request button, the status badge (with its label),
or nothing. -/
inductive AvailabilityPanel where
  | availableIndicator
  | createRequestButton
  | requestStatusBadge (label : String)
  | empty
deriving DecidableEq

/-- The nested ternary of the GAME AVAILABILITY panel:
`is_available ? indicator : can_request ? button :
user_has_request ? badge : null`. -/
def availabilityPanel (gs : GameStatus) : AvailabilityPanel :=
  if gs.is_available then .availableIndicator
  else if gs.can_request then .createRequestButton
  else if gs.user_has_request then
    .requestStatusBadge (requestStatusLabel gs.user_request_status)
  else .empty

/-! ## Suggestions API -/

/-- Outcome of the `authFetch` in `getGameSuggestions`: a thrown network
error, or a response with an ok-flag and a parsed JSON body. The body's
element type is abstract — the function returns it verbatim. -/
inductive FetchOutcome (α : Type) where
  | netError
  | response (ok : Bool) (body : List α)
deriving DecidableEq

/-- What a call to `getGameSuggestions` did: the query parameters
(`q`, `limit`) of the issued fetch — `none` when no request was issued —
and the returned array. -/
structure SuggestionsCall (α : Type) where
  request : Option (String × Nat)
  result : List α
deriving DecidableEq

/-- `getGameSuggestions(query, limit)`: short queries
(`!query || query.trim().length < 2`) return `[]` without a fetch; a
non-ok response throws and the catch returns `[]`; a network error is
caught and returns `[]`; an ok response returns its body (the issued
fetch carries the trimmed query and the limit). -/
def getGameSuggestions {α : Type} (query : String) (limit : Nat)
    (net : FetchOutcome α) : SuggestionsCall α :=
  if query = "" ∨ (jsTrim query).length < 2 then
    { request := none, result := [] }
  else
    match net with
    | .netError => { request := some (jsTrim query, limit), result := [] }
    | .response ok body =>
        if ok then
          { request := some (jsTrim query, limit), result := body }
        else { request := some (jsTrim query, limit), result := [] }

/-! ## Admin-only pages -/

/-- The authenticated user as `AuthContext` sees it. -/
structure User where
  role : String
deriving DecidableEq

/-- `isAdmin` of `AuthContext`: `user?.role === 'admin'`. -/
def isAdminOf (user : Option User) : Bool :=
  match user with
  | some u => u.role = "admin"
  | none => false

/-- What a page render returns: a `<Navigate to replace />` redirect or
the page content (only the content wires up the page's operations). -/
inductive RenderResult where
  | navigate (dest : String) (replace : Bool)
  | content
deriving DecidableEq

/-- The admin gate at the top of `Library.jsx`:
`if (!isAdmin) return <Navigate to="/" replace />`. -/
def libraryRender (isAdmin : Bool) : RenderResult :=
  if !isAdmin then .navigate "/" true else .content

/-- The admin gate of `Settings.jsx` (before the tab UI renders):
`if (!isAdmin) return <Navigate to="/" replace />`. -/
def settingsRender (isAdmin : Bool) : RenderResult :=
  if !isAdmin then .navigate "/" true else .content

/-- A Settings state with both Telegram credentials filled in and no
successful test yet. -/
def testReadySettingsState : SettingsState :=
  { settings :=
      setSetting
        (setSetting initialSettingsMap .telegramBotToken (.s "123:abc"))
        .telegramChatId (.s "-100"),
    telegramTestSuccess := false, loading := false }

/-- A Settings state in which Telegram is enabled after a successful
test. -/
def telegramEnabledState : SettingsState :=
  { settings :=
      setSetting testReadySettingsState.settings .telegramEnabled
        (.b true),
    telegramTestSuccess := true, loading := false }

/-! ## Theorems -/

/-- Claim C2: `getNextStatus` implements exactly the spec's transition
graph — pending to approved, approved to completed, rejected to
approved, and every other status (in particular completed) to null, so
there is no further progression out of completed. -/
theorem getNextStatus_matches_spec_graph :
    getNextStatus "pending" = some "approved" ∧
    getNextStatus "approved" = some "completed" ∧
    getNextStatus "rejected" = some "approved" ∧
    getNextStatus "completed" = none ∧
    ∀ s : String, s ≠ "pending" → s ≠ "approved" → s ≠ "rejected" →
      getNextStatus s = none := by
  refine ⟨by decide, by decide, by decide, by decide, ?_⟩
  intro s h1 h2 h3
  simp [getNextStatus, h1, h2, h3]

/-- Claim C2, witness: a status outside the transition graph maps to
null. -/
theorem getNextStatus_matches_spec_graph_witness :
    getNextStatus "archived" = none :=
  getNextStatus_matches_spec_graph.2.2.2.2 "archived" (by decide)
    (by decide) (by decide)

/-- Claim C3, counterexample: the Edit Status modal of the Requests page
offers `pending` among its options, and saving the modal with that
selection sends target status `pending` to the server — so not every
status-change operation reachable from the Requests page avoids
`pending`. -/
theorem editStatusModal_sends_pending :
    "pending" ∈ editStatusOptions ∧
    updateRequestStatusBody
      (selectEditStatus
        (openEditModal
          { id := 7, game_name := "Portal", status := "approved" })
        "pending") = "pending" :=
  ⟨by decide, by decide⟩

/-- Claim C3 (amended): the next-status progression never targets
`pending` — `getNextStatus` never returns `pending`, and the next-status
confirmation modal can only send a value produced by `getNextStatus` —
but the admin Edit Status modal does offer `pending` as a selectable
target. -/
theorem progression_never_targets_pending :
    (∀ s : String, getNextStatus s ≠ some "pending") ∧
    (∀ (r : Request) (m : NextStatusModalState),
        openNextStatusModal r = some m →
        confirmNextStatusBody m ≠ "pending") ∧
    "pending" ∈ editStatusOptions := by
  have h1 : ∀ s : String, getNextStatus s ≠ some "pending" := by
    intro s
    unfold getNextStatus
    split
    · simp
    · split
      · simp
      · split <;> simp
  refine ⟨h1, ?_, by decide⟩
  intro r m hm
  unfold openNextStatusModal at hm
  cases hg : getNextStatus r.status with
  | none => rw [hg] at hm; simp at hm
  | some ns =>
      rw [hg] at hm
      simp only [Option.map_some', Option.some.injEq] at hm
      subst hm
      have hns : ns ≠ "pending" := by
        intro h
        exact h1 r.status (h ▸ hg)
      simpa [confirmNextStatusBody] using hns

/-- Claim C3 (amended), witness: confirming the next status of a pending
request sends `approved`, not `pending`. -/
theorem progression_never_targets_pending_witness :
    confirmNextStatusBody
      { isOpen := true,
        request := some { id := 1, game_name := "Portal",
                          status := "pending" },
        nextStatus := "approved" } ≠ "pending" :=
  progression_never_targets_pending.2.1
    { id := 1, game_name := "Portal", status := "pending" } _ (by decide)

/-- Claim C4: the Library import banner shows the all-failure message
only when `successful_imports` is zero, and whenever some imports
succeeded it displays the success count and the total. -/
theorem importBanner_reports_partial_success :
    ∀ r : ImportResult,
      (∀ f : Nat, importBanner r = ImportBanner.noneImported f →
        r.successful_imports = 0) ∧
      (0 < r.successful_imports →
        (importBanner r).shownSuccessful = some r.successful_imports ∧
        (importBanner r).shownTotal = some r.total_games) := by
  intro r
  unfold importBanner
  constructor
  · intro f h
    split at h
    · simp at h
    · split at h
      · simp at h
      · omega
  · intro hpos
    split
    · rename_i heq
      simp [ImportBanner.shownSuccessful, ImportBanner.shownTotal, heq]
    · simp [hpos, ImportBanner.shownSuccessful, ImportBanner.shownTotal]

/-- Claim C4, witness: with 2 of 3 games imported, the banner shows 2
out of 3. -/
theorem importBanner_reports_partial_success_witness :
    0 <
      (ImportResult.mk 3 2 1 [] []).successful_imports ∧
    (importBanner (ImportResult.mk 3 2 1 [] [])).shownSuccessful =
      some 2 ∧
    (importBanner (ImportResult.mk 3 2 1 [] [])).shownTotal = some 3 :=
  ⟨by decide,
    (importBanner_reports_partial_success
      (ImportResult.mk 3 2 1 [] [])).2 (by decide)⟩

/-- Claim C5: every text import whose settled status is success came
from a successful API call, and the textarea is replaced with exactly
the names of that result's `failed_games`, joined one per line in
result order. -/
theorem handleTextImport_keeps_failed_names :
    ∀ (st : LibraryState) (api : ImportApiOutcome),
      (handleTextImport st api).importStatus = ImportStatus.success →
      ∃ result : ImportResult,
        api = ImportApiOutcome.ok result ∧
        (handleTextImport st api).textImportInput =
          String.intercalate "\n"
            (result.failed_games.map FailedGame.name) := by
  intro st api
  unfold handleTextImport
  split
  · intro h; simp at h
  · split
    · intro h; simp at h
    · split
      · rename_i result
        exact fun _ => ⟨result, rfl, rfl⟩
      · rename_i msg
        intro h; simp at h

/-- Claim C5, witness: importing two names where one fails leaves
exactly the failed name in the textarea. -/
theorem handleTextImport_keeps_failed_names_witness :
    ∃ result : ImportResult,
      ImportApiOutcome.ok
          { total_games := 2, successful_imports := 1,
            failed_imports := 1, imported_games := [],
            failed_games := [{ name := "B", reason := "NoMatch" }] } =
        ImportApiOutcome.ok result ∧
      (handleTextImport
          { importStatus := .idle, importMessage := "",
            importResults := none, textImportInput := "A\nB" }
          (ImportApiOutcome.ok
            { total_games := 2, successful_imports := 1,
              failed_imports := 1, imported_games := [],
              failed_games :=
                [{ name := "B", reason := "NoMatch" }] })).textImportInput =
        String.intercalate "\n"
          (result.failed_games.map FailedGame.name) :=
  handleTextImport_keeps_failed_names
    { importStatus := .idle, importMessage := "", importResults := none,
      textImportInput := "A\nB" }
    (ImportApiOutcome.ok
      { total_games := 2, successful_imports := 1, failed_imports := 1,
        imported_games := [],
        failed_games := [{ name := "B", reason := "NoMatch" }] })
    (by decide)

/-- Every list of per-item outcomes partitions, by length, into its two
projections (imported and failed). -/
theorem length_getLeft_add_length_getRight :
    ∀ l : List (ImportedGame ⊕ FailedGame),
      (l.filterMap Sum.getLeft?).length +
          (l.filterMap Sum.getRight?).length = l.length := by
  intro l
  induction l with
  | nil => rfl
  | cons x xs ih =>
      cases x with
      | inl g =>
          simp only [List.filterMap_cons, Sum.getLeft?, Sum.getRight?,
            List.length_cons]
          omega
      | inr f =>
          simp only [List.filterMap_cons, Sum.getLeft?, Sum.getRight?,
            List.length_cons]
          omega

/-- Claim C6: in every import batch the imported and failed entries
together account for exactly the submitted names — processing never
drops or aborts on an item. -/
theorem importBatch_partition_invariant :
    ∀ (resolve : String → ItemOutcome) (names : List String),
      (importBatch resolve names).imported_games.length +
          (importBatch resolve names).failed_games.length =
        names.length ∧
      (importBatch resolve names).successful_imports +
          (importBatch resolve names).failed_imports =
        (importBatch resolve names).total_games := by
  intro resolve names
  have h :=
    length_getLeft_add_length_getRight (names.map (processName resolve))
  constructor
  · simpa [importBatch] using h
  · simpa [importBatch] using h

/-- Claim C7: the availability panel renders exactly one state, with
fixed priority — Available iff `is_available`, else the request button
iff `can_request`, else the status badge iff `user_has_request`, else
nothing. -/
theorem availabilityPanel_priority :
    ∀ gs : GameStatus,
      (availabilityPanel gs = AvailabilityPanel.availableIndicator ↔
        gs.is_available = true) ∧
      (gs.is_available = false →
        (availabilityPanel gs = AvailabilityPanel.createRequestButton ↔
          gs.can_request = true)) ∧
      (gs.is_available = false → gs.can_request = false →
        (availabilityPanel gs =
            AvailabilityPanel.requestStatusBadge
              (requestStatusLabel gs.user_request_status) ↔
          gs.user_has_request = true)) ∧
      (gs.is_available = false → gs.can_request = false →
        gs.user_has_request = false →
        availabilityPanel gs = AvailabilityPanel.empty) := by
  intro gs
  cases gs with
  | mk ia cr uhr urs =>
      cases ia <;> cases cr <;> cases uhr <;>
        simp [availabilityPanel]

/-- Claim C7, witness: a game that is unavailable, unrequestable and
unrequested renders nothing. -/
theorem availabilityPanel_priority_witness :
    availabilityPanel
      { is_available := false, can_request := false,
        user_has_request := false, user_request_status := none } =
      AvailabilityPanel.empty :=
  (availabilityPanel_priority
    { is_available := false, can_request := false,
      user_has_request := false, user_request_status := none }).2.2.2
    rfl rfl rfl

/-- Claim C9: `getGameSuggestions` is total and absorbs all errors —
a query whose trimmed length is below 2 yields the empty list with no
network request, and a network error or non-ok response yields the
empty list instead of a thrown exception. -/
theorem getGameSuggestions_absorbs_errors :
    ∀ (α : Type) (query : String) (limit : Nat) (net : FetchOutcome α),
      ((jsTrim query).length < 2 →
        getGameSuggestions query limit net =
          { request := none, result := [] }) ∧
      (net = FetchOutcome.netError →
        (getGameSuggestions query limit net).result = []) ∧
      (∀ (ok : Bool) (body : List α),
        net = FetchOutcome.response ok body → ok = false →
        (getGameSuggestions query limit net).result = []) := by
  intro α query limit net
  refine ⟨?_, ?_, ?_⟩
  · intro h
    simp [getGameSuggestions, h]
  · intro h
    subst h
    unfold getGameSuggestions
    split
    · rfl
    · rfl
  · intro ok body h hok
    subst h
    subst hok
    unfold getGameSuggestions
    split
    · rfl
    · rfl

/-- Claim C9, witness: a one-character query issues no request, and a
network error and a non-ok response both return the empty list. -/
theorem getGameSuggestions_absorbs_errors_witness :
    (jsTrim " a ").length < 2 ∧
    getGameSuggestions (α := Nat) " a " 10 FetchOutcome.netError =
      { request := none, result := [] } ∧
    (getGameSuggestions (α := Nat) "query" 10
        FetchOutcome.netError).result = [] ∧
    (getGameSuggestions (α := Nat) "query" 10
        (FetchOutcome.response false [5])).result = [] :=
  ⟨by decide,
    (getGameSuggestions_absorbs_errors Nat " a " 10
      FetchOutcome.netError).1 (by decide),
    (getGameSuggestions_absorbs_errors Nat "query" 10
      FetchOutcome.netError).2.1 rfl,
    (getGameSuggestions_absorbs_errors Nat "query" 10
      (FetchOutcome.response false [5])).2.2 false [5] rfl rfl⟩

/-- Claim C10: when the authenticated user's role is not admin (or no
user is authenticated), both the Library page and the Settings page
render a replacing redirect to the root route instead of their
content. -/
theorem admin_only_pages_redirect :
    ∀ user : Option User,
      (∀ u : User, user = some u → u.role ≠ "admin" →
        libraryRender (isAdminOf user) = RenderResult.navigate "/" true ∧
        settingsRender (isAdminOf user) =
          RenderResult.navigate "/" true) ∧
      (user = none →
        libraryRender (isAdminOf user) = RenderResult.navigate "/" true ∧
        settingsRender (isAdminOf user) =
          RenderResult.navigate "/" true) := by
  intro user
  constructor
  · intro u hu hrole
    subst hu
    simp [libraryRender, settingsRender, isAdminOf, hrole]
  · intro h
    subst h
    simp [libraryRender, settingsRender, isAdminOf]

/-- Claim C10, witness: a regular user is redirected off both pages. -/
theorem admin_only_pages_redirect_witness :
    libraryRender (isAdminOf (some { role := "user" })) =
      RenderResult.navigate "/" true ∧
    settingsRender (isAdminOf (some { role := "user" })) =
      RenderResult.navigate "/" true :=
  (admin_only_pages_redirect (some { role := "user" })).1
    { role := "user" } rfl (by decide)

/-- Point lookup of an assignment. -/
theorem setSetting_same (s : SettingsMap) (key : SettingKey)
    (v : SettingValue) : setSetting s key v key = v := by
  simp [setSetting]

/-- Lookup away from the assigned key. -/
theorem setSetting_other (s : SettingsMap) (key : SettingKey)
    (v : SettingValue) (k : SettingKey) (h : k ≠ key) :
    setSetting s key v k = s k := by
  simp [setSetting, h]

/-- `handleSettingChange` either keeps `telegramTestSuccess` or resets
it to false; it never sets it. -/
theorem handleSettingChange_testSuccess (st : SettingsState)
    (key : SettingKey) (value : SettingValue) :
    (handleSettingChange st key value).telegramTestSuccess =
        st.telegramTestSuccess ∨
      (handleSettingChange st key value).telegramTestSuccess = false := by
  unfold handleSettingChange
  split
  · split
    · exact Or.inr rfl
    · exact Or.inr rfl
  · exact Or.inl rfl

/-- `handleTelegramToggle` never touches `telegramTestSuccess`. -/
theorem handleTelegramToggle_testSuccess (st : SettingsState)
    (saveOk : Bool) :
    (handleTelegramToggle st saveOk).telegramTestSuccess =
      st.telegramTestSuccess := by
  unfold handleTelegramToggle
  split
  · rfl
  · rfl

/-- `handleTelegramNotificationToggle` never touches
`telegramTestSuccess`. -/
theorem handleTelegramNotificationToggle_testSuccess (st : SettingsState)
    (key : SettingKey) (newValue saveOk : Bool) :
    (handleTelegramNotificationToggle st key newValue
        saveOk).telegramTestSuccess =
      st.telegramTestSuccess := by
  unfold handleTelegramNotificationToggle
  split
  · rfl
  · rfl

/-- `testTelegramConnection` sets `telegramTestSuccess` from false to
true only on an ok response whose `success` field is strictly true. -/
theorem testTelegramConnection_success_only (st : SettingsState)
    (outcome : TestOutcome) (h0 : st.telegramTestSuccess = false)
    (h1 : (testTelegramConnection st outcome).telegramTestSuccess = true) :
    outcome =
      TestOutcome.response true (some (SettingValue.b true)) := by
  cases outcome with
  | saveFailed =>
      exfalso
      unfold testTelegramConnection at h1
      split at h1
      · rw [h0] at h1; simp at h1
      · simp at h1
  | netError =>
      exfalso
      unfold testTelegramConnection at h1
      split at h1
      · rw [h0] at h1; simp at h1
      · simp at h1
  | response ok success =>
      unfold testTelegramConnection at h1
      split at h1
      · rw [h0] at h1; simp at h1
      · split at h1
        · rename_i heq
          exact absurd heq (by simp)
        · rename_i heq
          exact absurd heq (by simp)
        · rename_i ok2 success2 heq
          injection heq with e1 e2
          subst e1
          subst e2
          split at h1
          · rename_i hcond
            rw [hcond.1, hcond.2]
          · simp at h1

/-- Claim C1: the Telegram channel cannot be enabled without a prior
successful test — whenever `telegramTestSuccess` is false and the
stored `telegramEnabled` setting is falsy, the Enable Telegram toggle
is disabled; and no step of the Settings component turns
`telegramTestSuccess` from false to true except a test call whose
response is ok with `success === true`. -/
theorem telegram_enable_requires_successful_test :
    (∀ st : SettingsState, st.telegramTestSuccess = false →
        (st.settings SettingKey.telegramEnabled).truthy = false →
        telegramToggleDisabled st = true) ∧
    (∀ (e : SettingsEvent) (st : SettingsState),
        st.telegramTestSuccess = false →
        (settingsStep e st).telegramTestSuccess = true →
        e = SettingsEvent.telegramTest
          (TestOutcome.response true (some (SettingValue.b true)))) := by
  constructor
  · intro st h1 h2
    simp [telegramToggleDisabled, h1, h2]
  · intro e st h0 h1
    cases e with
    | settingChange key value =>
        exfalso
        simp only [settingsStep] at h1
        rcases handleSettingChange_testSuccess st key value with h | h <;>
          rw [h] at h1 <;> simp [h0] at h1
    | telegramTest outcome =>
        simp only [settingsStep] at h1
        rw [testTelegramConnection_success_only st outcome h0 h1]
    | telegramToggle saveOk =>
        exfalso
        simp only [settingsStep] at h1
        split at h1
        · rw [h0] at h1; simp at h1
        · rw [handleTelegramToggle_testSuccess, h0] at h1
          simp at h1
    | notificationToggle key newValue saveOk =>
        exfalso
        simp only [settingsStep] at h1
        split at h1
        · rw [h0] at h1; simp at h1
        · rw [handleTelegramNotificationToggle_testSuccess, h0] at h1
          simp at h1
    | saveAll ok =>
        exfalso
        simp only [settingsStep] at h1
        rw [h0] at h1
        simp at h1
    | loadSettings server =>
        exfalso
        simp only [settingsStep] at h1
        simp [h0] at h1

/-- Claim C1, witness: in the initial state the toggle is disabled, and
a successful test on a configured state is exactly what flips
`telegramTestSuccess` to true. -/
theorem telegram_enable_requires_successful_test_witness :
    (initialSettingsState.telegramTestSuccess = false ∧
      (initialSettingsState.settings
          SettingKey.telegramEnabled).truthy = false ∧
      telegramToggleDisabled initialSettingsState = true) ∧
    (testReadySettingsState.telegramTestSuccess = false ∧
      (settingsStep
          (SettingsEvent.telegramTest
            (TestOutcome.response true (some (SettingValue.b true))))
          testReadySettingsState).telegramTestSuccess = true ∧
      SettingsEvent.telegramTest
          (TestOutcome.response true (some (SettingValue.b true))) =
        SettingsEvent.telegramTest
          (TestOutcome.response true (some (SettingValue.b true)))) :=
  ⟨⟨rfl, rfl,
      telegram_enable_requires_successful_test.1 initialSettingsState
        rfl rfl⟩,
    ⟨rfl, by decide,
      telegram_enable_requires_successful_test.2
        (SettingsEvent.telegramTest
          (TestOutcome.response true (some (SettingValue.b true))))
        testReadySettingsState rfl (by decide)⟩⟩

/-- Claim C8: editing the Telegram credentials through
`handleSettingChange` revokes prior validation — after any change to
the bot token or the chat id (and, more generally, after any
`handleSettingChange` application that alters either credential),
`telegramTestSuccess` is false and Telegram is disabled. -/
theorem handleSettingChange_revokes_validation :
    ∀ (st : SettingsState) (key : SettingKey) (value : SettingValue),
      ((key = SettingKey.telegramBotToken ∨
          key = SettingKey.telegramChatId) →
        (handleSettingChange st key value).telegramTestSuccess = false ∧
        ((handleSettingChange st key value).settings
            SettingKey.telegramEnabled).truthy = false) ∧
      (((handleSettingChange st key value).settings
            SettingKey.telegramBotToken ≠
          st.settings SettingKey.telegramBotToken ∨
        (handleSettingChange st key value).settings
            SettingKey.telegramChatId ≠
          st.settings SettingKey.telegramChatId) →
        (handleSettingChange st key value).telegramTestSuccess = false ∧
        ((handleSettingChange st key value).settings
            SettingKey.telegramEnabled).truthy = false) := by
  intro st key value
  have hmain :
      (key = SettingKey.telegramBotToken ∨
        key = SettingKey.telegramChatId) →
      (handleSettingChange st key value).telegramTestSuccess = false ∧
      ((handleSettingChange st key value).settings
          SettingKey.telegramEnabled).truthy = false := by
    intro hk
    have hkey : key ≠ SettingKey.telegramEnabled := by
      rcases hk with h | h <;> subst h <;> simp
    unfold handleSettingChange
    rw [if_pos hk]
    split
    · refine ⟨rfl, ?_⟩
      dsimp only
      rw [setSetting_same]
      rfl
    · rename_i hen
      refine ⟨rfl, ?_⟩
      dsimp only
      rw [setSetting_other _ _ _ _ (Ne.symm hkey)]
      simpa using hen
  refine ⟨hmain, ?_⟩
  intro hch
  by_cases hk :
      key = SettingKey.telegramBotToken ∨ key = SettingKey.telegramChatId
  · exact hmain hk
  · exfalso
    push_neg at hk
    have hb : key ≠ SettingKey.telegramBotToken := hk.1
    have hc : key ≠ SettingKey.telegramChatId := hk.2
    have hunch :
        (handleSettingChange st key value).settings
            SettingKey.telegramBotToken =
          st.settings SettingKey.telegramBotToken ∧
        (handleSettingChange st key value).settings
            SettingKey.telegramChatId =
          st.settings SettingKey.telegramChatId := by
      unfold handleSettingChange
      rw [if_neg (by tauto)]
      exact ⟨setSetting_other _ _ _ _ (Ne.symm hb),
        setSetting_other _ _ _ _ (Ne.symm hc)⟩
    rcases hch with h | h
    · exact h hunch.1
    · exact h hunch.2

/-- Claim C8, witness: changing the bot token on an enabled, tested
state resets the test flag and disables Telegram. -/
theorem handleSettingChange_revokes_validation_witness :
    (SettingKey.telegramBotToken = SettingKey.telegramBotToken ∨
      SettingKey.telegramBotToken = SettingKey.telegramChatId) ∧
    (handleSettingChange telegramEnabledState .telegramBotToken
        (.s "999:zzz")).telegramTestSuccess = false ∧
    ((handleSettingChange telegramEnabledState .telegramBotToken
        (.s "999:zzz")).settings
        SettingKey.telegramEnabled).truthy = false :=
  ⟨Or.inl rfl,
    (handleSettingChange_revokes_validation telegramEnabledState
      .telegramBotToken (.s "999:zzz")).1 (Or.inl rfl)⟩

end GameRequest
